import Mathlib

/-!
Verification of the BAUM VarioPro NVDA braille-display driver
(`baumVarioPro.py`): a shallow embedding of the transport unescaper, the
packet-assembly state machine, the module registry with its dispatcher,
the per-module payload decoders and the braille output path, together
with theorems about the protocol-level properties of that code.

Conventions of the embedding:
* bytes are `Nat` values (0–255 where relevant);
* Python instance attributes become record fields threaded explicitly;
* a Python exception that escapes a function is an `Except.error`;
  an exception that is caught inside the translated function (a
  `try`/`except` in the source) never surfaces as `Except.error`;
* each received byte is one `_onReceive` call, whose outer
  `try`/`except` logs and swallows any exception, so a stream of bytes
  is folded byte by byte with errors contained per byte.
-/

abbrev Byte := Nat

/-- Signed reinterpretation of one byte, as `unpack("b", bytes([w]))[0]`
does in the source. -/
def toSigned (b : Byte) : Int :=
  if b < 128 then (b : Int) else (b : Int) - 256

/-- Group tags of the gesture dictionaries built by the decoders
(`BAUM_ROUTING_KEYS`, `BAUM_DISPLAY_KEYS`, ..., `SM_CK` in the source). -/
inductive KeyGroup where
  | routingKeys
  | displayKeys
  | wheelsUp
  | wheelsDown
  | wheelsPush
  | tasoNCKeys
  | tasoSWKeys
  | tasoSWReleases
  | tasoHS
  | tasoVS
  | tasoWheel
  | telKCWKeys
  | telRoutingKeys
  | telWheel
  | statusRoutingKeys
  | statusCKeys
deriving DecidableEq

/-- One `InputGesture(...)`/`executeGesture` call: the group tag and the
bitmask handed over.  `NoInputGestureAction` is caught in the source, so
from the core's view every constructed gesture is one emitted event. -/
abbrev Event := KeyGroup × Nat

/-- The module kinds instantiable from `VP_MODULE_CLASSES_MAP`. -/
inductive ModKind where
  | main80
  | main64
  | taso
  | status
  | telephone
deriving DecidableEq

/-- `VP_MODULE_CLASSES_MAP`, keyed by `tuple(pkt[2:4])`; `none` models a
`KeyError` on lookup of an unknown module type. -/
def VP_MODULE_CLASSES_MAP (ty : List Byte) : Option ModKind :=
  if ty = [0x80, 0x41] then some ModKind.main80
  else if ty = [0x81, 0x41] then some ModKind.main64
  else if ty = [0x95, 0x41] then some ModKind.taso
  else if ty = [0x91, 0x41] then some ModKind.telephone
  else if ty = [0x90, 0x41] then some ModKind.status
  else none

/-- The instance attributes of a `VarioProModule` object (union of the
fields set by the base class and by each subclass constructor; fields a
given kind never touches stay at their zero initialization). -/
structure ModuleState where
  kind : ModKind
  module_id : List Byte
  module_type : List Byte
  has_braille : Bool
  number_cells : Nat
  cumul_d_keys : Nat
  prev_ths : Nat
  prev_tvs : Nat
  prev_tnckeys : Nat
  prev_tswkeys : Nat
  prev_sm_c_keys : Nat
  prev_tm_kcw_keys : Nat
deriving DecidableEq

/-- Constructor of the module classes: `module_type = module_id[:2]`,
differential fields zero-initialized, `number_cells`/`has_braille` per
kind as in the five `__init__` methods. -/
def initModule (kind : ModKind) (module_id : List Byte) : ModuleState :=
  let base : ModuleState :=
    { kind := kind, module_id := module_id, module_type := module_id.take 2,
      has_braille := false, number_cells := 0, cumul_d_keys := 0,
      prev_ths := 0, prev_tvs := 0, prev_tnckeys := 0, prev_tswkeys := 0,
      prev_sm_c_keys := 0, prev_tm_kcw_keys := 0 }
  match kind with
  | ModKind.main80 => { base with number_cells := 80 }
  | ModKind.main64 => { base with number_cells := 64 }
  | ModKind.taso => base
  | ModKind.status => { base with number_cells := 4, has_braille := true }
  | ModKind.telephone => { base with number_cells := 12, has_braille := true }

/-- `VarioProMainModule80.process_main_routing_keys`: suppressed when the
mask is zero. -/
def process_main_routing_keys (r_keys : Nat) : List Event :=
  if r_keys = 0 then [] else [(KeyGroup.routingKeys, r_keys)]

/-- `VarioProMainModule80.process_main_display_keys`: a nonzero mask is
OR-accumulated with no event; a zero mask flushes the accumulator as one
DisplayKeys event and resets it. -/
def process_main_display_keys (m : ModuleState) (d_keys : Nat) :
    ModuleState × List Event :=
  if d_keys ≠ 0 then
    ({ m with cumul_d_keys := m.cumul_d_keys ||| d_keys }, [])
  else
    ({ m with cumul_d_keys := 0 }, [(KeyGroup.displayKeys, m.cumul_d_keys)])

/-- `VarioProMainModule80.process_main_wheel_buttons`: suppressed when
zero. -/
def process_main_wheel_buttons (wp : Nat) : List Event :=
  if wp = 0 then [] else [(KeyGroup.wheelsPush, wp)]

/-- Helper for `process_main_wheel_rotation`: walk the wheel bytes with
their index `wi`.  In the source, the per-detent `for i in range(0, ws,
sign(ws))` loop only rebinds the same gesture dictionary `wd`; the
`try`/`executeGesture` block sits AFTER that loop (at the loop's own
indentation, inside `if ws != 0`), so one gesture is executed per
nonzero wheel byte. -/
def mainWheelEvents (wi : Nat) : List Byte → List Event
  | [] => []
  | w :: rest =>
    let ws := toSigned w
    (if ws ≠ 0 then
      [if 0 < ws then (KeyGroup.wheelsUp, 1 <<< wi)
       else (KeyGroup.wheelsDown, 1 <<< wi)]
     else []) ++ mainWheelEvents (wi + 1) rest

/-- `VarioProMainModule80.process_main_wheel_rotation`. -/
def process_main_wheel_rotation (wheels : List Byte) : List Event :=
  mainWheelEvents 0 wheels

/-- `r_keys |= pkt[i + off] << (i * 8)` for `i in range(klen)`; an index
past the end raises `IndexError` (uncaught in the decoder). -/
def buildRKeys (pkt : List Byte) (off : Nat) : Nat → Except String Nat
  | 0 => Except.ok 0
  | k + 1 =>
    match buildRKeys pkt off k with
    | Except.error e => Except.error e
    | Except.ok acc =>
      match pkt.get? (k + off) with
      | none => Except.error "IndexError"
      | some b => Except.ok (acc ||| (b <<< (k * 8)))

/-- `VarioProMainModule80.process_main_data_packet` (also used by the
64-cell subclass, which differs via `module_type` and `number_cells`).
The status bits are tested highest first; payload offsets differ by one
between the 80- and 64-cell variants. -/
def process_main_data_packet (m : ModuleState) (pkt : List Byte) :
    Except String (ModuleState × List Event) :=
  match pkt.get? 0 with
  | none => Except.error "IndexError"
  | some stat =>
    if stat &&& 0x08 ≠ 0 then
      match buildRKeys pkt (if m.module_type = [0x80, 0x41] then 8 else 7)
          (m.number_cells / 8) with
      | Except.error e => Except.error e
      | Except.ok r_keys => Except.ok (m, process_main_routing_keys r_keys)
    else if stat &&& 0x04 ≠ 0 then
      match pkt.get? (if m.module_type = [0x80, 0x41] then 7 else 6) with
      | none => Except.error "IndexError"
      | some dk => Except.ok (process_main_display_keys m dk)
    else if stat &&& 0x02 ≠ 0 then
      match pkt.get? (if m.module_type = [0x80, 0x41] then 6 else 5) with
      | none => Except.error "IndexError"
      | some wp => Except.ok (m, process_main_wheel_buttons wp)
    else if stat &&& 0x01 ≠ 0 then
      Except.ok (m, process_main_wheel_rotation
        (if m.module_type = [0x80, 0x41] then (pkt.drop 2).take 4
         else (pkt.drop 2).take 3))
    else Except.ok (m, [])

/-- `VarioProTasoModule.process_taso_wheel_rotation`: here the
`try`/`executeGesture` block IS inside the per-detent loop, so `|ws|`
events are emitted; positive rotation carries bit `1 <<< 1`, negative
carries bit `1`. -/
def process_taso_wheel_rotation (wd : Byte) : List Event :=
  let ws := toSigned wd
  List.replicate ws.natAbs
    (if 0 < ws then (KeyGroup.tasoWheel, 2) else (KeyGroup.tasoWheel, 1))

/-- `VarioProTasoModule.process_taso_vertical_slider_position`:
`vs = abs(prev_tvs - val)` events, each with bit `1 <<< 1` when
`val < prev_tvs` else bit `1`; `prev_tvs` is updated afterwards in every
case. -/
def process_taso_vertical_slider_position (m : ModuleState) (val : Nat) :
    ModuleState × List Event :=
  let vs := ((m.prev_tvs : Int) - (val : Int)).natAbs
  ({ m with prev_tvs := val },
   List.replicate vs
     (if val < m.prev_tvs then (KeyGroup.tasoVS, 2) else (KeyGroup.tasoVS, 1)))

/-- `VarioProTasoModule.process_taso_horizontal_slider_position`: as the
vertical one, but the `1 <<< 1` bit goes with `val > prev_ths`. -/
def process_taso_horizontal_slider_position (m : ModuleState) (val : Nat) :
    ModuleState × List Event :=
  let hs := ((m.prev_ths : Int) - (val : Int)).natAbs
  ({ m with prev_ths := val },
   List.replicate hs
     (if m.prev_ths < val then (KeyGroup.tasoHS, 2) else (KeyGroup.tasoHS, 1)))

/-- `VarioProTasoModule.process_taso_keys`. -/
def process_taso_keys (m : ModuleState) (tk : List Byte) :
    Except String (ModuleState × List Event) :=
  match tk.get? 0, tk.get? 1, tk.get? 2 with
  | some t0, some t1, some t2 =>
    let tnckeys := t0 ||| (t1 <<< 8) ||| ((t2 &&& 0x07) <<< 12)
    let tswkeys := (t2 >>> 5) &&& 0x07
    let e1 := if m.prev_tnckeys ≠ tnckeys ∧ tnckeys ≠ 0 then
        [(KeyGroup.tasoNCKeys, tnckeys)] else []
    let e2 := if m.prev_tswkeys ≠ tswkeys then
        (if tswkeys ≠ 0 then [(KeyGroup.tasoSWKeys, tswkeys)]
         else [(KeyGroup.tasoSWReleases, 1)])
      else []
    Except.ok ({ m with prev_tnckeys := tnckeys, prev_tswkeys := tswkeys },
      e1 ++ e2)
  | _, _, _ => Except.error "IndexError"

/-- `VarioProTasoModule.process_taso_data_packet`. -/
def process_taso_data_packet (m : ModuleState) (pkt : List Byte) :
    Except String (ModuleState × List Event) :=
  match pkt.get? 0 with
  | none => Except.error "IndexError"
  | some stat =>
    if stat &&& 0x08 ≠ 0 then
      process_taso_keys m ((pkt.drop 5).take 3)
    else if stat &&& 0x04 ≠ 0 then
      match pkt.get? 4 with
      | none => Except.error "IndexError"
      | some v => Except.ok (process_taso_horizontal_slider_position m v)
    else if stat &&& 0x02 ≠ 0 then
      match pkt.get? 3 with
      | none => Except.error "IndexError"
      | some v => Except.ok (process_taso_vertical_slider_position m v)
    else if stat &&& 0x01 ≠ 0 then
      match pkt.get? 2 with
      | none => Except.error "IndexError"
      | some w => Except.ok (m, process_taso_wheel_rotation w)
    else Except.ok (m, [])

/-- `VarioProStatusModule.process_status_module_keys`. -/
def process_status_module_keys (m : ModuleState) (sk : Byte) :
    ModuleState × List Event :=
  let c := sk &&& 0x0F
  let e := if m.prev_sm_c_keys ≠ c ∧ c ≠ 0 then [(KeyGroup.statusCKeys, c)]
    else []
  ({ m with prev_sm_c_keys := c }, e)

/-- `VarioProStatusModule.process_status_module_data_packet`. -/
def process_status_module_data_packet (m : ModuleState) (pkt : List Byte) :
    Except String (ModuleState × List Event) :=
  match pkt.get? 0 with
  | none => Except.error "IndexError"
  | some stat =>
    if stat &&& 0x02 ≠ 0 then
      match pkt.get? 2 with
      | none => Except.error "IndexError"
      | some sk => Except.ok (process_status_module_keys m sk)
    else Except.ok (m, [])

/-- `VarioProTelephoneModule.process_telephone_module_keys`. -/
def process_telephone_module_keys (m : ModuleState) (tk : List Byte) :
    Except String (ModuleState × List Event) :=
  match tk.get? 0, tk.get? 1, tk.get? 2 with
  | some t0, some t1, some t2 =>
    let k := t1 ||| (t2 <<< 8) ||| ((t0 &&& 0x0F) <<< 16) ||| ((t0 >>> 7) <<< 20)
    let e := if m.prev_tm_kcw_keys ≠ k ∧ k ≠ 0 then [(KeyGroup.telKCWKeys, k)]
      else []
    Except.ok ({ m with prev_tm_kcw_keys := k }, e)
  | _, _, _ => Except.error "IndexError"

/-- `VarioProTelephoneModule.process_telephone_module_wheel_rotation`:
the gesture execution is inside the per-detent loop. -/
def process_telephone_module_wheel_rotation (wd : Byte) : List Event :=
  let ws := toSigned wd
  List.replicate ws.natAbs
    (if 0 < ws then (KeyGroup.telWheel, 2) else (KeyGroup.telWheel, 1))

/-- `VarioProTelephoneModule.process_telephone_module_data_packet`. -/
def process_telephone_module_data_packet (m : ModuleState) (pkt : List Byte) :
    Except String (ModuleState × List Event) :=
  match pkt.get? 0 with
  | none => Except.error "IndexError"
  | some stat =>
    if stat &&& 0x02 ≠ 0 then
      process_telephone_module_keys m ((pkt.drop 3).take 5)
    else if stat &&& 0x01 ≠ 0 then
      match pkt.get? 2 with
      | none => Except.error "IndexError"
      | some w => Except.ok (m, process_telephone_module_wheel_rotation w)
    else Except.ok (m, [])

/-- Dynamic dispatch `m.input_handler(...)`: each constructed module has
its class's data-packet method as `input_handler`. -/
def input_handler (m : ModuleState) (pkt : List Byte) :
    Except String (ModuleState × List Event) :=
  match m.kind with
  | ModKind.main80 => process_main_data_packet m pkt
  | ModKind.main64 => process_main_data_packet m pkt
  | ModKind.taso => process_taso_data_packet m pkt
  | ModKind.status => process_status_module_data_packet m pkt
  | ModKind.telephone => process_telephone_module_data_packet m pkt

/-- The driver attributes touched by packet processing:
`connected_modules` is the registry dict (association list preserving
insertion semantics), `sent` records each `send_packet(cmd, payload)`
call made while processing. -/
structure Driver where
  numCells : Nat
  connected_modules : List (List Byte × ModuleState)
  mainModule : Option (List Byte)
  statusModule : Option (List Byte)
  telephoneModule : Option (List Byte)
  sent : List (Byte × List Byte)
deriving DecidableEq

/-- Python dict lookup on the registry. -/
def assocGet (l : List (List Byte × ModuleState)) (k : List Byte) :
    Option ModuleState :=
  match l with
  | [] => none
  | (k2, v) :: rest => if k2 = k then some v else assocGet rest k

/-- Python dict assignment on the registry. -/
def assocSet (l : List (List Byte × ModuleState)) (k : List Byte)
    (v : ModuleState) : List (List Byte × ModuleState) :=
  match l with
  | [] => [(k, v)]
  | (k2, v2) :: rest =>
    if k2 = k then (k, v) :: rest else (k2, v2) :: assocSet rest k v

/-- Python `del` on the registry (the absent case is guarded by
`try`/`except` at the call site, so this is total). -/
def assocErase (l : List (List Byte × ModuleState)) (k : List Byte) :
    List (List Byte × ModuleState) :=
  match l with
  | [] => []
  | (k2, v2) :: rest =>
    if k2 = k then rest else (k2, v2) :: assocErase rest k

/-- Driver attribute assignments performed inside the module class
constructors (`driver.numCells = ...`, `driver.mainModule = self`,
`driver.statusModule = self`, `driver.telephoneModule = self`). -/
def applyCtorEffects (d : Driver) (kind : ModKind) (idb : List Byte) :
    Driver :=
  match kind with
  | ModKind.main80 => { d with numCells := 80, mainModule := some idb }
  | ModKind.main64 => { d with numCells := 64, mainModule := some idb }
  | ModKind.taso => d
  | ModKind.status => { d with statusModule := some idb }
  | ModKind.telephone => { d with telephoneModule := some idb }

def BAUM_VP_DEVICE_DETECTION : Byte := 0x50

def BAUM_VP_DYNAMIC_DATA_BLOCK : Byte := 0x51

/-- `BrailleDisplayDriver.process_packet`.  `pkt` is the dedoubled frame
without its leading ESC: info type at index 0, length byte at index 1,
payload from index 2 on.  An `Except.error` is an exception escaping
`process_packet` itself.  The arrival branch wraps module construction
and registration in `try`/`except` (so an unknown module type is only
logged), and the removal branch guards the `del` likewise.  The
DynamicDataBlock branch performs the registry lookup OUTSIDE its
`try`/`except` (the `except` covers only the `input_handler` call), so a
lookup `KeyError` escapes. -/
def process_packet (d : Driver) (pkt : List Byte) :
    Except String (Driver × List Event) :=
  match pkt.get? 0 with
  | none => Except.error "IndexError"
  | some b0 =>
    if b0 = BAUM_VP_DEVICE_DETECTION then
      if pkt.length = 11 then
        match pkt.get? 10 with
        | none => Except.error "IndexError"
        | some s =>
          if s = 0x01 then
            let idb := (pkt.drop 2).take 4
            let ty := (pkt.drop 2).take 2
            match VP_MODULE_CLASSES_MAP ty with
            | some kind =>
              let m := initModule kind idb
              let d1 := applyCtorEffects d kind idb
              Except.ok
                ({ d1 with
                    connected_modules := assocSet d1.connected_modules idb m,
                    sent := d1.sent ++
                      [(BAUM_VP_DEVICE_DETECTION, idb ++ [0x01])] }, [])
            | none => Except.ok (d, [])
          else if s = 0x02 then
            Except.ok
              ({ d with connected_modules :=
                  assocErase d.connected_modules ((pkt.drop 2).take 4) }, [])
          else if s = 0x03 then Except.ok (d, [])
          else Except.ok (d, [])
      else Except.ok (d, [])
    else if b0 = BAUM_VP_DYNAMIC_DATA_BLOCK then
      let key := (pkt.drop 2).take 4
      match assocGet d.connected_modules key with
      | none => Except.error "KeyError"
      | some m =>
        match input_handler m (pkt.drop 6) with
        | Except.ok (m2, evs) =>
          Except.ok
            ({ d with connected_modules := assocSet d.connected_modules key m2 },
             evs)
        | Except.error _ => Except.ok (d, [])
    else Except.ok (d, [])

def VPS_IDLE : Nat := 0

def VPS_W4_INFOTYPE : Nat := 1

def VPS_W4_LENGTH : Nat := 2

def VPS_GET_PAYLOAD : Nat := 3

/-- The receive-side mutable state of `BrailleDisplayDriver`:
state-machine position, packet buffer, remaining payload count (a Python
int, so it can go negative), the transport layer's previous byte, and
the driver state touched by dispatch. -/
structure RxState where
  bp_sm_state : Nat
  vp_pkt : List Byte
  vp_payload_len : Int
  bp_trans_prev_byte : Byte
  driver : Driver
deriving DecidableEq

/-- Result of feeding one byte: successor state, events emitted, frames
handed to `process_packet`, and whether an exception escaped (to be
caught and logged by `_onReceive`). -/
structure RxStep where
  st : RxState
  events : List Event
  dispatched : List (List Byte)
  raised : Bool
deriving DecidableEq

/-- `BrailleDisplayDriver.baumprotocol_receive_statemachine`.  Faithful
points: in `VPS_IDLE` the transition to `VPS_W4_INFOTYPE` stands after
(not inside) the `if b == 0x1B` test, so it happens for every byte; in
`VPS_W4_LENGTH` there is no special case for a zero length byte; in
`VPS_GET_PAYLOAD` the reset to `VPS_IDLE` stands after the
`process_packet` call and is skipped when that call raises. -/
def baumprotocol_receive_statemachine (s : RxState) (b : Byte) : RxStep :=
  if s.bp_sm_state = VPS_IDLE then
    let s1 := if b = 0x1B then { s with vp_pkt := [] } else s
    { st := { s1 with bp_sm_state := VPS_W4_INFOTYPE },
      events := [], dispatched := [], raised := false }
  else if s.bp_sm_state = VPS_W4_INFOTYPE then
    let s1 := { s with vp_pkt := s.vp_pkt ++ [b] }
    if b = 0x50 ∨ b = 0x51 then
      { st := { s1 with bp_sm_state := VPS_W4_LENGTH },
        events := [], dispatched := [], raised := false }
    else
      { st := { s1 with bp_sm_state := VPS_IDLE },
        events := [], dispatched := [], raised := false }
  else if s.bp_sm_state = VPS_W4_LENGTH then
    let s1 := { s with vp_pkt := s.vp_pkt ++ [b],
                       vp_payload_len := (b : Int),
                       bp_sm_state := VPS_GET_PAYLOAD }
    { st := s1, events := [], dispatched := [], raised := false }
  else if s.bp_sm_state = VPS_GET_PAYLOAD then
    let pkt := s.vp_pkt ++ [b]
    let len := s.vp_payload_len - 1
    let s1 := { s with vp_pkt := pkt, vp_payload_len := len }
    if len = 0 then
      match process_packet s1.driver pkt with
      | Except.ok (d2, evs) =>
        { st := { s1 with driver := d2, bp_sm_state := VPS_IDLE },
          events := evs, dispatched := [pkt], raised := false }
      | Except.error _ =>
        { st := s1, events := [], dispatched := [pkt], raised := true }
    else
      { st := s1, events := [], dispatched := [], raised := false }
  else
    { st := s, events := [], dispatched := [], raised := false }

/-- `BrailleDisplayDriver.decode_escape_transport`: a second consecutive
ESC is discarded and the previous-byte memory is reset to 0; otherwise
the byte is fed to the packetizing state machine and then remembered —
unless the state machine raised, in which case the memory update is
skipped (and `_onReceive` logs the exception). -/
def decode_escape_transport (s : RxState) (b : Byte) : RxStep :=
  if b = 0x1B ∧ s.bp_trans_prev_byte = 0x1B then
    { st := { s with bp_trans_prev_byte := 0 },
      events := [], dispatched := [], raised := false }
  else
    let r := baumprotocol_receive_statemachine s b
    if r.raised then r
    else
      { r with st := { r.st with bp_trans_prev_byte := b } }

/-- Outcome of feeding a whole byte stream, one `_onReceive` call per
byte. -/
structure RxRun where
  st : RxState
  events : List Event
  dispatched : List (List Byte)
deriving DecidableEq

/-- Feed bytes in order; per-byte exceptions are logged by `_onReceive`
and do not stop the stream. -/
def runReceive (s : RxState) : List Byte → RxRun
  | [] => { st := s, events := [], dispatched := [] }
  | b :: bs =>
    let r := decode_escape_transport s b
    let rest := runReceive r.st bs
    { st := rest.st, events := r.events ++ rest.events,
      dispatched := r.dispatched ++ rest.dispatched }

/-- Driver state right after `__init__` sets its fields (before any
packet arrives). -/
def initDriver : Driver :=
  { numCells := 0, connected_modules := [], mainModule := none,
    statusModule := none, telephoneModule := none, sent := [] }

/-- Receive state right after `__init__`. -/
def initRx : RxState :=
  { bp_sm_state := VPS_IDLE, vp_pkt := [], vp_payload_len := 0,
    bp_trans_prev_byte := 0, driver := initDriver }

/-- The payload escaping loop of `send_packet`: every payload byte is
appended, and an ESC byte is appended twice. -/
def escapePayload : List Byte → List Byte
  | [] => []
  | b :: bs =>
    if b = 0x1B then b :: b :: escapePayload bs else b :: escapePayload bs

/-- `BrailleDisplayDriver.send_packet`: header `1B cmd len` (with the
length byte itself doubled when it equals 0x1B) followed by the escaped
payload. -/
def send_packet (cmd : Byte) (payload : List Byte) : List Byte :=
  let dep := escapePayload payload
  let depl := payload.length
  [0x1B, cmd, depl] ++ (if depl = 0x1B then [depl] else []) ++ dep

/-- The pure content of `decode_escape_transport`'s transport layer as a
function on byte sequences: starting from previous-byte memory `prev`,
collapse doubled ESC bytes (resetting the memory to 0 after a collapse)
and forward everything else. -/
def unescapeFrom (prev : Byte) : List Byte → List Byte
  | [] => []
  | b :: bs =>
    if b = 0x1B ∧ prev = 0x1B then unescapeFrom 0 bs
    else b :: unescapeFrom b bs

def BAUM_STATUS_CELLS_NUMBER : Nat := 4

def BAUM_TELEPHONE_CELLS_NUMBER : Nat := 12

/-- The attributes of a module object that `display`/`braille_out_send`
read (`output_handler` is set for every constructed module, so presence
of the module reference decides the truthiness tests). -/
structure VPOutModule where
  number_cells : Nat
  module_id : List Byte
deriving DecidableEq

/-- `BrailleDisplayDriver.braille_out_send`: builds and sends one
DynamicDataBlock payload `moduleId ++ [0x00, 0x00, len] ++ cells`, but
only when both `cells` and `moduleId` are truthy (nonempty); returns the
payloads sent. -/
def braille_out_send (cells : List Byte) (moduleId : List Byte) :
    List (List Byte) :=
  if cells ≠ [] ∧ moduleId ≠ [] then
    [moduleId ++ [0x00, 0x00, cells.length] ++ cells]
  else []

/-- `BrailleDisplayDriver.display`: the main module gets
`cells[:number_cells]` and, when `len(cells)` equals the main cell
count, `display` returns early; otherwise the status module (when set)
gets the fixed 4-cell slice after the main range and the telephone
module (when set) the fixed 12-cell slice after that.  Both of the
latter slices read `self.mainModule.number_cells`, which raises
`AttributeError` when `mainModule` is `None`. -/
def display (mainModule statusModule telephoneModule : Option VPOutModule)
    (cells : List Byte) : Except String (List (List Byte)) :=
  match mainModule with
  | some m =>
    let p1 := braille_out_send (cells.take m.number_cells) m.module_id
    if cells.length = m.number_cells then Except.ok p1
    else
      let p2 := match statusModule with
        | some sm =>
          braille_out_send
            ((cells.drop m.number_cells).take BAUM_STATUS_CELLS_NUMBER)
            sm.module_id
        | none => []
      let p3 := match telephoneModule with
        | some tm =>
          braille_out_send
            ((cells.drop (m.number_cells + BAUM_STATUS_CELLS_NUMBER)).take
              BAUM_TELEPHONE_CELLS_NUMBER)
            tm.module_id
        | none => []
      Except.ok (p1 ++ p2 ++ p3)
  | none =>
    if statusModule.isSome ∨ telephoneModule.isSome then
      Except.error "AttributeError"
    else Except.ok []

/-- The `for i in range(10)` device-arrival wait loop of
`BrailleDisplayDriver.__init__`: `cells` lists the value of
`self.numCells` observed after each `waitForRead`; the loop breaks at
the first nonzero observation and otherwise only logs
"Device arrival timeout" each iteration. -/
def vpArrivalWaitLoop (v : Nat) : List Nat → Nat
  | [] => v
  | c :: rest => if c ≠ 0 then c else vpArrivalWaitLoop c rest

/-- `BrailleDisplayDriver.__init__` around the wait loop, with the
serial collaborator abstracted: `portOpenRaises` says whether opening or
querying the port raised (the only exceptions possible in the `try`
block), in which case the `except` clause re-raises
`RuntimeError("No BAUM VarioPro display found")`; otherwise the
constructor runs the wait loop and returns normally with the resulting
`numCells` — there is no raise after the loop. -/
def BrailleDisplayDriver_init (portOpenRaises : Bool) (cells : List Nat) :
    Except String Nat :=
  if portOpenRaises then Except.error "No BAUM VarioPro display found"
  else Except.ok (vpArrivalWaitLoop 0 cells)

/-- Fold `process_main_display_keys` over a sequence of display-key
field values from successive packets. -/
def runDisplayKeys (m : ModuleState) : List Nat → ModuleState × List Event
  | [] => (m, [])
  | k :: ks =>
    let r := process_main_display_keys m k
    let rest := runDisplayKeys r.1 ks
    (rest.1, r.2 ++ rest.2)

/-- C10: escaping a payload for transmission (doubling every 0x1B byte, as
`send_packet` does) and then running the receiver's transport unescaper
from any non-ESC previous-byte memory reproduces the original payload:
`unescape(escape(payload)) = payload`. -/
theorem C10_escape_roundtrip (prev : Byte) (payload : List Byte)
    (h : prev ≠ 0x1B) :
    unescapeFrom prev (escapePayload payload) = payload := by
  induction payload generalizing prev with
  | nil => rfl
  | cons b bs ih =>
    by_cases hb : b = 0x1B
    · subst hb
      rw [escapePayload, if_pos rfl, unescapeFrom,
        if_neg (by simp [h]), unescapeFrom, if_pos ⟨rfl, rfl⟩]
      exact congrArg _ (ih 0 (by decide))
    · rw [escapePayload, if_neg hb, unescapeFrom, if_neg (by simp [hb])]
      exact congrArg _ (ih b hb)

/-- C10 witness: the round trip evaluated on a payload containing 0x1B at
several positions, from the initial previous-byte memory 0. -/
theorem C10_escape_roundtrip_witness :
    (0 : Byte) ≠ 0x1B ∧
    unescapeFrom 0 (escapePayload [0x1B, 5, 0x1B, 0x1B, 9]) =
      [0x1B, 5, 0x1B, 0x1B, 9] :=
  ⟨by decide, C10_escape_roundtrip 0 [0x1B, 5, 0x1B, 0x1B, 9] (by decide)⟩

/-- Helper for C8: folding the display-keys handler over nonzero masks
followed by the zero mask flushes once, with the OR of the masks over the
initial accumulator value. -/
theorem runDisplayKeys_flush (ms : List Nat) : ∀ (m : ModuleState),
    (∀ k ∈ ms, k ≠ 0) →
    runDisplayKeys m (ms ++ [0]) =
      ({ m with cumul_d_keys := 0 },
       [(KeyGroup.displayKeys, ms.foldl (fun a k => a ||| k) m.cumul_d_keys)]) := by
  induction ms with
  | nil =>
    intro m _
    simp [runDisplayKeys, process_main_display_keys]
  | cons k ks ih =>
    intro m h
    have hk : k ≠ 0 := h k (List.mem_cons_self k ks)
    have hks : ∀ x ∈ ks, x ≠ 0 := fun x hx => h x (List.mem_cons_of_mem k hx)
    simp only [List.cons_append, runDisplayKeys, process_main_display_keys,
      if_pos hk, List.foldl_cons, List.append_eq]
    rw [ih _ hks]
    simp

/-- C8: starting from a flushed accumulator, every nonzero display-key
mask in the sequence is OR-accumulated and emits no event, and the final
zero mask emits exactly one DisplayKeys event whose value is the bitwise
OR of all the nonzero masks, resetting the accumulator to zero. -/
theorem C8_display_key_accumulation (m : ModuleState) (ms : List Nat)
    (hz : ms.all (fun k => k != 0) = true) (h0 : m.cumul_d_keys = 0) :
    runDisplayKeys m (ms ++ [0]) =
      ({ m with cumul_d_keys := 0 },
       [(KeyGroup.displayKeys, ms.foldl (fun a k => a ||| k) 0)]) := by
  have h : ∀ k ∈ ms, k ≠ 0 := by
    intro k hk
    have := List.all_eq_true.mp hz k hk
    simpa using this
  rw [runDisplayKeys_flush ms m h, h0]

/-- C8 witness: masks 1, 4, 2 then 0 on a fresh 80-cell main module emit
exactly one DisplayKeys event valued `1 ||| 4 ||| 2`. -/
theorem C8_display_key_accumulation_witness :
    ([1, 4, 2].all (fun k => k != 0) = true) ∧
    (initModule ModKind.main80 [0x80, 0x41, 0, 0]).cumul_d_keys = 0 ∧
    runDisplayKeys (initModule ModKind.main80 [0x80, 0x41, 0, 0]) ([1, 4, 2] ++ [0]) =
      ({ initModule ModKind.main80 [0x80, 0x41, 0, 0] with cumul_d_keys := 0 },
       [(KeyGroup.displayKeys, [1, 4, 2].foldl (fun a k => a ||| k) 0)]) :=
  ⟨rfl, rfl, C8_display_key_accumulation _ _ rfl rfl⟩

/-- C9: for each TASO slider axis, a new absolute position `p` emits
exactly `|p - prev|` single-step events and then stores `p` as the new
previous position in every case (zero events when `p` equals the stored
position); the direction bit keeps the asymmetric hardware convention: a
horizontal increase carries bit value 2, as does a vertical decrease. -/
theorem C9_slider_differential (m : ModuleState) (p : Nat) :
    process_taso_vertical_slider_position m p =
      ({ m with prev_tvs := p },
       List.replicate ((p : Int) - (m.prev_tvs : Int)).natAbs
         (if p < m.prev_tvs then (KeyGroup.tasoVS, 2) else (KeyGroup.tasoVS, 1))) ∧
    process_taso_horizontal_slider_position m p =
      ({ m with prev_ths := p },
       List.replicate ((p : Int) - (m.prev_ths : Int)).natAbs
         (if m.prev_ths < p then (KeyGroup.tasoHS, 2) else (KeyGroup.tasoHS, 1))) ∧
    (process_taso_vertical_slider_position m m.prev_tvs).2 = [] ∧
    (process_taso_horizontal_slider_position m m.prev_ths).2 = [] := by
  have habs : ∀ a b : Int, (a - b).natAbs = (b - a).natAbs := by
    intro a b
    rw [← Int.natAbs_neg, neg_sub]
  refine ⟨?_, ?_, ?_, ?_⟩ <;>
    simp [process_taso_vertical_slider_position,
      process_taso_horizontal_slider_position, habs]

/-- C4: evaluation of the wheel decoders at the spec's inputs.  The main
display decoder emits a single Up event for a rotation byte of +3 and a
single Down event for -2 (the gesture execution stands after the
per-detent loop in the source), while the TASO and telephone wheel
decoders do emit `|delta|` single-detent events.  This refutes the claim
that every wheel-bearing module expands a delta of +3 into 3 events. -/
theorem C4_wheel_expansion_eval :
    process_main_wheel_rotation [3, 0, 0, 0] = [(KeyGroup.wheelsUp, 1)] ∧
    process_main_wheel_rotation [0, 254, 0, 0] = [(KeyGroup.wheelsDown, 2)] ∧
    process_main_wheel_rotation [0, 0, 0, 0] = [] ∧
    process_taso_wheel_rotation 3 = List.replicate 3 (KeyGroup.tasoWheel, 2) ∧
    process_taso_wheel_rotation 254 = List.replicate 2 (KeyGroup.tasoWheel, 1) ∧
    process_taso_wheel_rotation 0 = [] ∧
    process_telephone_module_wheel_rotation 3 =
      List.replicate 3 (KeyGroup.telWheel, 2) ∧
    process_telephone_module_wheel_rotation 254 =
      List.replicate 2 (KeyGroup.telWheel, 1) := by
  decide

/-- C1: evaluation at a DynamicDataBlock frame whose identity is not in
the registry.  `process_packet` raises (the lookup stands outside its
`try`/`except`), the assembler is left in `VPS_GET_PAYLOAD` instead of
returning to Idle, the registry and module state are unchanged and no
event is emitted — and a following well-formed frame (which alone would
be dispatched) is swallowed.  This refutes the claim that such packets
are dropped non-fatally with the assembler returned to Idle. -/
theorem C1_unregistered_identity_eval :
    process_packet initDriver [0x51, 5, 1, 2, 3, 4, 8] = Except.error "KeyError" ∧
    (runReceive initRx [0x1B, 0x51, 5, 1, 2, 3, 4, 8]).st.bp_sm_state =
      VPS_GET_PAYLOAD ∧
    (runReceive initRx [0x1B, 0x51, 5, 1, 2, 3, 4, 8]).st.driver = initDriver ∧
    (runReceive initRx [0x1B, 0x51, 5, 1, 2, 3, 4, 8]).events = [] ∧
    (runReceive initRx ([0x1B, 0x51, 5, 1, 2, 3, 4, 8] ++
        [0x1B, 0x50, 2, 9, 9])).dispatched = [[0x51, 5, 1, 2, 3, 4, 8]] ∧
    (runReceive initRx [0x1B, 0x50, 2, 9, 9]).dispatched = [[0x50, 2, 9, 9]] :=
  ⟨rfl, by decide, by decide, by decide, by decide, by decide⟩

/-- C2: evaluation at the zero-length frame `1B 50 00`.  The assembler
moves to `VPS_GET_PAYLOAD` and dispatches nothing, and a following
well-formed frame (which alone would be dispatched) is also swallowed —
the remaining-count only decrements below zero.  This refutes the claim
that a length-0 frame is dispatched immediately with empty payload. -/
theorem C2_zero_length_eval :
    (runReceive initRx [0x1B, 0x50, 0]).st.bp_sm_state = VPS_GET_PAYLOAD ∧
    (runReceive initRx [0x1B, 0x50, 0]).dispatched = [] ∧
    (runReceive initRx ([0x1B, 0x50, 0] ++ [0x1B, 0x50, 2, 9, 9])).dispatched = [] ∧
    (runReceive initRx [0x1B, 0x50, 2, 9, 9]).dispatched = [[0x50, 2, 9, 9]] := by
  decide

/-- C3: evaluation at a non-ESC byte in Idle.  The state machine moves to
`VPS_W4_INFOTYPE` (the transition stands outside the `if b == 0x1B` test)
instead of staying in Idle, and a single noise byte 0x41 prepended to the
well-formed frame `1B 50 01 05` makes that frame vanish instead of being
dispatched unchanged.  This refutes the claim that non-ESC bytes in Idle
are discarded with the state unchanged. -/
theorem C3_idle_noise_eval :
    (baumprotocol_receive_statemachine initRx 0x41).st.bp_sm_state =
      VPS_W4_INFOTYPE ∧
    (baumprotocol_receive_statemachine initRx 0x41).st.bp_sm_state ≠ VPS_IDLE ∧
    (runReceive initRx [0x41, 0x1B, 0x50, 1, 5]).dispatched = [] ∧
    (runReceive initRx [0x1B, 0x50, 1, 5]).dispatched = [[0x50, 1, 5]] := by
  decide

/-- C5 counterexample: an Arrived packet with unknown leading identity
bytes (0x99, 0x41) leaves the driver state completely unchanged — the
identity is NOT stored in the registry (which stays empty) and no
acknowledgment is sent — refuting the claim that the identity is still
stored. -/
theorem C5_counterexample :
    process_packet initDriver [0x50, 9, 0x99, 0x41, 0, 0, 0, 0, 0, 0, 0x01] =
      Except.ok (initDriver, []) ∧
    initDriver.connected_modules = [] ∧
    initDriver.sent = [] :=
  ⟨rfl, rfl, rfl⟩

/-- C5 (amended): an Arrived packet whose leading identity bytes match no
known module kind is dropped with only a logged error — the registry is
unchanged, no module is created and no acknowledgment is sent — and a
subsequent DynamicDataBlock carrying that (still unregistered) identity
emits no events: its registry lookup raises a KeyError that escapes the
dispatcher. -/
theorem C5_unknown_kind_amended (d : Driver) (t0 t1 b2 b3 L L2 : Byte)
    (s0 s1 s2 s3 : Byte) (data : List Byte)
    (hkind : VP_MODULE_CLASSES_MAP [t0, t1] = none)
    (hreg : assocGet d.connected_modules [t0, t1, b2, b3] = none) :
    process_packet d [0x50, L, t0, t1, b2, b3, s0, s1, s2, s3, 0x01] =
      Except.ok (d, []) ∧
    process_packet d ([0x51, L2, t0, t1, b2, b3] ++ data) =
      Except.error "KeyError" := by
  constructor
  · simp [process_packet, BAUM_VP_DEVICE_DETECTION, BAUM_VP_DYNAMIC_DATA_BLOCK,
      hkind]
  · simp [process_packet, BAUM_VP_DEVICE_DETECTION, BAUM_VP_DYNAMIC_DATA_BLOCK,
      hreg]

/-- C5 witness: the amended claim evaluated at the unknown module type
(0x99, 0x41) on the empty registry. -/
theorem C5_unknown_kind_witness :
    VP_MODULE_CLASSES_MAP [0x99, 0x41] = none ∧
    assocGet initDriver.connected_modules [0x99, 0x41, 0, 0] = none ∧
    (process_packet initDriver [0x50, 9, 0x99, 0x41, 0, 0, 0, 0, 0, 0, 0x01] =
       Except.ok (initDriver, []) ∧
     process_packet initDriver ([0x51, 5, 0x99, 0x41, 0, 0] ++ [0x08]) =
       Except.error "KeyError") :=
  ⟨rfl, rfl,
   C5_unknown_kind_amended initDriver 0x99 0x41 0 0 9 5 0 0 0 0 [0x08] rfl rfl⟩

/-- Helper for C6: the wait loop returns 0 when every observed cell count
is zero. -/
theorem vpArrivalWaitLoop_zero (cells : List Nat)
    (hz : cells.all (fun c => c == 0) = true) :
    vpArrivalWaitLoop 0 cells = 0 := by
  induction cells with
  | nil => rfl
  | cons c rest ih =>
    simp only [List.all_cons, Bool.and_eq_true, beq_iff_eq] at hz
    obtain ⟨hc, hrest⟩ := hz
    subst hc
    simpa [vpArrivalWaitLoop] using ih hrest

/-- C6 counterexample: when the port opens without raising and the cell
count stays 0 through all 10 waits, the constructor returns normally with
`numCells = 0` — refuting the claim that it raises
"No BAUM VarioPro display found" in that situation. -/
theorem C6_counterexample :
    BrailleDisplayDriver_init false (List.replicate 10 0) = Except.ok 0 := rfl

/-- C6 (amended): if no module arrival makes the cell count nonzero
within the retry budget, the constructor returns a driver with
`numCells = 0` (each wait only logs a timeout); the RuntimeError
"No BAUM VarioPro display found" is raised exactly when opening or
querying the port raises. -/
theorem C6_init_amended (cells : List Nat)
    (hz : cells.all (fun c => c == 0) = true) :
    BrailleDisplayDriver_init false cells = Except.ok 0 ∧
    BrailleDisplayDriver_init true cells =
      Except.error "No BAUM VarioPro display found" := by
  refine ⟨?_, rfl⟩
  simp [BrailleDisplayDriver_init, vpArrivalWaitLoop_zero cells hz]

/-- C6 witness: the amended claim evaluated at ten all-zero
observations. -/
theorem C6_init_witness :
    ((List.replicate 10 0).all (fun c => c == 0) = true) ∧
    (BrailleDisplayDriver_init false (List.replicate 10 0) = Except.ok 0 ∧
     BrailleDisplayDriver_init true (List.replicate 10 0) =
       Except.error "No BAUM VarioPro display found") :=
  ⟨rfl, C6_init_amended (List.replicate 10 0) rfl⟩

/-- C7 (amended): with the main module present and a combined buffer
extending past the main range, `display` sends the main module the first
`number_cells` bytes, the status unit its fixed 4-cell range and the
telephone unit its fixed 12-cell range, the three slices covering the
buffer in fixed order; absent modules are skipped without error.  (A
present module whose slice is empty gets no packet; the counterexample
shows the early return when the buffer length equals the main cell
count.) -/
theorem C7_display_slicing_amended (m sm tm : VPOutModule) (cells : List Byte)
    (hnc : 0 < m.number_cells)
    (hm : m.module_id ≠ []) (hs : sm.module_id ≠ []) (ht : tm.module_id ≠ [])
    (hlen : cells.length =
      m.number_cells + BAUM_STATUS_CELLS_NUMBER + BAUM_TELEPHONE_CELLS_NUMBER) :
    display (some m) (some sm) (some tm) cells =
      Except.ok
        [m.module_id ++ [0x00, 0x00, m.number_cells] ++ cells.take m.number_cells,
         sm.module_id ++ [0x00, 0x00, BAUM_STATUS_CELLS_NUMBER] ++
           (cells.drop m.number_cells).take BAUM_STATUS_CELLS_NUMBER,
         tm.module_id ++ [0x00, 0x00, BAUM_TELEPHONE_CELLS_NUMBER] ++
           (cells.drop (m.number_cells + BAUM_STATUS_CELLS_NUMBER)).take
             BAUM_TELEPHONE_CELLS_NUMBER] ∧
    cells.take m.number_cells ++
      ((cells.drop m.number_cells).take BAUM_STATUS_CELLS_NUMBER ++
       (cells.drop (m.number_cells + BAUM_STATUS_CELLS_NUMBER)).take
         BAUM_TELEPHONE_CELLS_NUMBER) = cells ∧
    display (some m) none none cells =
      Except.ok
        [m.module_id ++ [0x00, 0x00, m.number_cells] ++
          cells.take m.number_cells] ∧
    display none none none cells = Except.ok [] := by
  simp only [BAUM_STATUS_CELLS_NUMBER, BAUM_TELEPHONE_CELLS_NUMBER] at hlen ⊢
  have hne : cells.length ≠ m.number_cells := by omega
  have htl : (cells.take m.number_cells).length = m.number_cells := by
    rw [List.length_take]
    omega
  have htne : cells.take m.number_cells ≠ [] := by
    intro hcon
    rw [hcon] at htl
    simp at htl
    omega
  have hdl : (cells.drop m.number_cells).length = 16 := by
    rw [List.length_drop]
    omega
  have hs2l : ((cells.drop m.number_cells).take 4).length = 4 := by
    simp [List.length_take, hdl]
  have hs2ne : (cells.drop m.number_cells).take 4 ≠ [] := by
    intro hcon
    rw [hcon] at hs2l
    simp at hs2l
  have hd2l : (cells.drop (m.number_cells + 4)).length = 12 := by
    rw [List.length_drop]
    omega
  have hs3l : ((cells.drop (m.number_cells + 4)).take 12).length = 12 := by
    simp [List.length_take, hd2l]
  have hs3ne : (cells.drop (m.number_cells + 4)).take 12 ≠ [] := by
    intro hcon
    rw [hcon] at hs3l
    simp at hs3l
  have e1 : braille_out_send (cells.take m.number_cells) m.module_id =
      [m.module_id ++ [0x00, 0x00, m.number_cells] ++ cells.take m.number_cells] := by
    rw [braille_out_send, if_pos ⟨htne, hm⟩, htl]
  have e2 : braille_out_send ((cells.drop m.number_cells).take 4) sm.module_id =
      [sm.module_id ++ [0x00, 0x00, 4] ++ (cells.drop m.number_cells).take 4] := by
    rw [braille_out_send, if_pos ⟨hs2ne, hs⟩, hs2l]
  have e3 : braille_out_send ((cells.drop (m.number_cells + 4)).take 12)
      tm.module_id =
      [tm.module_id ++ [0x00, 0x00, 12] ++
        (cells.drop (m.number_cells + 4)).take 12] := by
    rw [braille_out_send, if_pos ⟨hs3ne, ht⟩, hs3l]
  refine ⟨?_, ?_, ?_, ?_⟩
  · simp only [display, if_neg hne, BAUM_STATUS_CELLS_NUMBER,
      BAUM_TELEPHONE_CELLS_NUMBER, e1, e2, e3]
    rfl
  · rw [List.take_of_length_le (le_of_eq hd2l), List.drop_take_append_drop,
      List.take_append_drop]
  · simp only [display, if_neg hne, e1]
    rfl
  · rfl

/-- C7 counterexample: with the 80-cell main module and the status unit
both present and a combined buffer of exactly 80 cells (the usual NVDA
buffer, since `numCells` is 80), `display` sends only the main module's
packet — the status unit, though present, is sent nothing — refuting the
claim that every present output-capable module is sent its own packet. -/
theorem C7_counterexample :
    display (some ⟨80, [0x80, 0x41, 0, 7]⟩) (some ⟨4, [0x90, 0x41, 0, 9]⟩) none
        (List.replicate 80 3) =
      Except.ok [[0x80, 0x41, 0, 7] ++ [0x00, 0x00, 80] ++ List.replicate 80 3] ∧
    ¬ [0x90, 0x41, 0, 9] ∈
        ([[0x80, 0x41, 0, 7] ++ [0x00, 0x00, 80] ++ List.replicate 80 3]).map
          (fun p => p.take 4) :=
  ⟨rfl, by decide⟩

/-- C7 witness: the amended claim evaluated at a 1-cell main module,
status and telephone units, and a 17-byte buffer. -/
theorem C7_display_slicing_witness :
    (0 < (⟨1, [0x80, 0x41, 0, 1]⟩ : VPOutModule).number_cells) ∧
    ((List.range 17).length =
      (⟨1, [0x80, 0x41, 0, 1]⟩ : VPOutModule).number_cells +
        BAUM_STATUS_CELLS_NUMBER + BAUM_TELEPHONE_CELLS_NUMBER) ∧
    display (some ⟨1, [0x80, 0x41, 0, 1]⟩) (some ⟨4, [0x90, 0x41, 0, 2]⟩)
        (some ⟨12, [0x91, 0x41, 0, 3]⟩) (List.range 17) =
      Except.ok
        [[0x80, 0x41, 0, 1] ++ [0x00, 0x00, 1] ++ (List.range 17).take 1,
         [0x90, 0x41, 0, 2] ++ [0x00, 0x00, BAUM_STATUS_CELLS_NUMBER] ++
           ((List.range 17).drop 1).take BAUM_STATUS_CELLS_NUMBER,
         [0x91, 0x41, 0, 3] ++ [0x00, 0x00, BAUM_TELEPHONE_CELLS_NUMBER] ++
           ((List.range 17).drop (1 + BAUM_STATUS_CELLS_NUMBER)).take
             BAUM_TELEPHONE_CELLS_NUMBER] :=
  ⟨by decide, by decide,
   (C7_display_slicing_amended ⟨1, [0x80, 0x41, 0, 1]⟩ ⟨4, [0x90, 0x41, 0, 2]⟩
     ⟨12, [0x91, 0x41, 0, 3]⟩ (List.range 17) (by decide) (by decide)
     (by decide) (by decide) (by decide)).1⟩
